import Mathlib

set_option linter.unusedVariables false

/-!
Shallow embedding of the movie-ticket booking program (`src/main.py`).

Modelling conventions:
* Python float prices are modelled as rationals (`ℚ`); every price arising in
  the program is a product of a base price with 1.5 or 2, exact in binary
  floating point and in `ℚ` alike.
* Mutable `Seat` objects shared between a `Show` and a `Booking` are modelled
  by an explicit seat store (`List Seat`, the show's seat list); mutating
  `seat.status` through a reference becomes an id-keyed update of the store.
* `Customer.bookings` (a Python dict) is modelled as an association list with
  the dict's replace-on-insert semantics.
* `random.choice` in `PaymentGateway.process_payment` is modelled by passing
  the random draw as an explicit argument.
-/

namespace MovieTicket

/-- Enum `SeatType` from the source (GOLD, PREMIUM). -/
inductive SeatType
  | gold
  | premium
deriving DecidableEq, Repr

/-- Enum `SeatStatus` from the source: only BOOKED and AVAILABLE exist. -/
inductive SeatStatus
  | booked
  | available
deriving DecidableEq, Repr

/-- The pricing strategy hierarchy from the source, as a closed enum:
`GoldPricingStrategy` and `PremiumPricingStrategy`. -/
inductive PricingStrategy
  | goldPricingStrategy
  | premiumPricingStrategy
deriving DecidableEq, Repr

/-- Method `GoldPricingStrategy.get_price` returns `base_price * 1.5`;
`PremiumPricingStrategy.get_price` returns `base_price * 2`. -/
def PricingStrategy.get_price : PricingStrategy → ℚ → ℚ
  | .goldPricingStrategy, base_price => base_price * (3 / 2)
  | .premiumPricingStrategy, base_price => base_price * 2

/-- Structure `Seat` from the source: id, row, col, seat type, status, pricing strategy. -/
structure Seat where
  id : String
  row : Nat
  col : Nat
  seat_type : SeatType
  status : SeatStatus
  pricing_strategy : PricingStrategy
deriving DecidableEq, Repr

/-- Method `Seat.get_price` delegates to the seat's pricing strategy.  The method is
embedded in state-passing style: it returns the price together with the seat
(`self`) after the call, which the source leaves untouched. -/
def Seat.get_price (s : Seat) (base_price : ℚ) : ℚ × Seat :=
  (s.pricing_strategy.get_price base_price, s)

/-- The seat store: the show's seat list, holding the shared mutable `Seat`
objects.  Seats are looked up and mutated by id. -/
abbrev SeatStore := List Seat

/-- The loop `for seat in seats: seat.status = st` acting through shared
references: every seat of the store whose id is among `ids` gets status `st`. -/
def setStatus (store : SeatStore) (ids : List String) (st : SeatStatus) : SeatStore :=
  store.map (fun s => if s.id ∈ ids then { s with status := st } else s)

/-- Observe the status of the seat with id `i` in the store. -/
def statusOf (store : SeatStore) (i : String) : Option SeatStatus :=
  (store.find? (fun s => s.id == i)).map Seat.status

/-- The `Booking` record from the source.  The `customer` and `show` object
references are modelled by their ids; `seats` holds the ids of the seat
objects the booking aliases. -/
structure Booking where
  id : String
  customer_id : String
  show_id : String
  seats : List String
  total_price : ℚ
deriving DecidableEq, Repr

/-- Constructor `Booking.__init__` (src/main.py lines 91-99): stores the fields, computes
`total_price = sum(seat.get_price(base_price) for seat in seats)`, then runs
`for seat in seats: seat.status = SeatStatus.BOOKED`.  The constructor has no
failure path and performs no availability check.  It returns the constructed
record together with the updated seat store. -/
def Booking.init (id customer_id show_id : String) (seats : List Seat)
    (base_price : ℚ) (store : SeatStore) : Booking × SeatStore :=
  (⟨id, customer_id, show_id, seats.map Seat.id,
    (seats.map (fun s => (s.get_price base_price).1)).sum⟩,
   setStatus store (seats.map Seat.id) SeatStatus.booked)

/-- Structure `Customer` from the source: user fields plus the `bookings` dict,
modelled as an association list keyed by booking id. -/
structure Customer where
  id : String
  name : String
  contact_no : String
  bookings : List (String × Booking)
deriving DecidableEq, Repr

/-- Method `Customer.create_booking`: `self.bookings[booking.id] = booking`
(dict insert, replacing any entry with the same key). -/
def Customer.create_booking (c : Customer) (b : Booking) : Customer :=
  { c with bookings := (b.id, b) :: c.bookings.filter (fun p => p.1 != b.id) }

/-- Outcome of `Customer.cancel_booking`: the source prints a cancellation
message when the id is found and a warning when it is not. -/
inductive CancelResult
  | cancelled
  | notFound
deriving DecidableEq, Repr

/-- Method `Customer.cancel_booking` (src/main.py lines 48-56): if the id is in the
dict, set every seat of the booking to AVAILABLE and delete the entry;
otherwise print a warning and change nothing. -/
def Customer.cancel_booking (c : Customer) (booking_id : String)
    (store : SeatStore) : CancelResult × Customer × SeatStore :=
  match c.bookings.lookup booking_id with
  | some b =>
      (CancelResult.cancelled,
       { c with bookings := c.bookings.filter (fun p => p.1 != booking_id) },
       setStatus store b.seats SeatStatus.available)
  | none => (CancelResult.notFound, c, store)

/-- Method `PaymentGateway.process_payment` returns `random.choice([T, T, T, F])`;
the random draw is passed explicitly (the amount is only printed). -/
def PaymentGateway.process_payment (draw : Bool) (amount : ℚ) : Bool := draw

/-- Outcome of the booking section of `main` (src/main.py lines 294-311). -/
inductive BookOutcome
  | success (b : Booking)
  | paymentFailed
  | noAvailableSeats
deriving DecidableEq, Repr

/-- The booking flow of `main` (src/main.py lines 294-311): filter the show's
available seats, select the first, compute the total price, run the payment
gateway with the given random draw; on approval construct `Booking "B1"` over
the selected seats and store it with `create_booking`, otherwise report
failure without touching any seat. -/
def mainBookingFlow (customer : Customer) (store : SeatStore) (base_price : ℚ)
    (draw : Bool) : BookOutcome × Customer × SeatStore :=
  match store.filter (fun s => s.status == SeatStatus.available) with
  | [] => (BookOutcome.noAvailableSeats, customer, store)
  | s :: _ =>
      let selected_seats := [s]
      let total_price := (selected_seats.map (fun t => (t.get_price base_price).1)).sum
      if PaymentGateway.process_payment draw total_price then
        let r := Booking.init "B1" customer.id "SH1" selected_seats base_price store
        (BookOutcome.success r.1, customer.create_booking r.1, r.2)
      else
        (BookOutcome.paymentFailed, customer, store)

/-- Claim → commit → cancel round trip: construct a booking over `seats`,
store it with `create_booking`, then cancel it by id. -/
def claimCommitCancel (bid cid sid : String) (seats : List Seat)
    (base_price : ℚ) (c : Customer) (store : SeatStore) :
    CancelResult × Customer × SeatStore :=
  let r := Booking.init bid cid sid seats base_price store
  (c.create_booking r.1).cancel_booking bid r.2

/-- Seat S1 from `main`: Gold, available, gold pricing. -/
def seatS1 : Seat :=
  ⟨"S1", 1, 1, SeatType.gold, SeatStatus.available, PricingStrategy.goldPricingStrategy⟩

/-- Seat S2 from `main`: Premium, available, premium pricing. -/
def seatS2 : Seat :=
  ⟨"S2", 1, 2, SeatType.premium, SeatStatus.available, PricingStrategy.premiumPricingStrategy⟩

/-- The show's seat list in `main`. -/
def demoStore : SeatStore := [seatS1, seatS2]

/-- Customer C1 from `main`, with no bookings yet. -/
def customerC1 : Customer := ⟨"C1", "CustomerUser", "9876543210", []⟩

/-- S2 in an already-booked state, for counterexamples. -/
def seatS2b : Seat := { seatS2 with status := SeatStatus.booked }

/-- Pointwise effect of the status-setting loop: a seat's observed status is
forced to `st` when its id is in `ids` and untouched otherwise. -/
theorem statusOf_setStatus (store : SeatStore) (ids : List String)
    (st : SeatStatus) (i : String) :
    statusOf (setStatus store ids st) i
      = (statusOf store i).map (fun old => if i ∈ ids then st else old) := by
  induction store with
  | nil => rfl
  | cons s rest ih =>
    by_cases heq : s.id = i
    · subst heq
      by_cases hmem : s.id ∈ ids <;>
        simp [setStatus, statusOf, List.find?_cons, hmem]
    · by_cases hmem : s.id ∈ ids <;>
        simp [setStatus, statusOf, List.find?_cons, hmem, heq] <;>
        simpa [setStatus, statusOf] using ih

/-- C1, counterexample.  Seat S2 is already Booked, so by the claim a booking
over {S1, S2} must fail with `SeatUnavailable` and change no seat's status.
The code instead changes S1 from Available to Booked. -/
theorem C1_counterexample_not_all_or_nothing :
    seatS2b.status ≠ SeatStatus.available ∧
    statusOf [seatS1, seatS2b] "S1" = some SeatStatus.available ∧
    statusOf (Booking.init "B1" "C1" "SH1" [seatS1, seatS2b] 200
      [seatS1, seatS2b]).2 "S1" = some SeatStatus.booked := by
  refine ⟨by decide, by decide, ?_⟩
  decide

/-- C1, amended.  `Booking.__init__` performs no availability check: even when
some requested seat is not Available, the construction completes, the booking
names every requested seat, and every requested seat present in the store is
set to Booked; `SeatUnavailable` does not exist in the code. -/
theorem C1_booking_ignores_availability (id cid sid : String) (seats : List Seat)
    (base_price : ℚ) (store : SeatStore) (i : String)
    (hbad : ∃ s ∈ seats, s.status ≠ SeatStatus.available)
    (hi : i ∈ seats.map Seat.id) (hp : (statusOf store i).isSome) :
    (Booking.init id cid sid seats base_price store).1.seats = seats.map Seat.id ∧
    statusOf (Booking.init id cid sid seats base_price store).2 i
      = some SeatStatus.booked := by
  refine ⟨rfl, ?_⟩
  obtain ⟨st0, hst⟩ := Option.isSome_iff_exists.mp hp
  show statusOf (setStatus store (seats.map Seat.id) SeatStatus.booked) i = _
  rw [statusOf_setStatus, hst]
  simp [hi]

theorem C1_booking_ignores_availability_witness :
    (Booking.init "B7" "C1" "SH1" [seatS2b] 200 [seatS2b]).1.seats
      = [seatS2b].map Seat.id ∧
    statusOf (Booking.init "B7" "C1" "SH1" [seatS2b] 200 [seatS2b]).2 "S2"
      = some SeatStatus.booked :=
  C1_booking_ignores_availability "B7" "C1" "SH1" [seatS2b] 200 [seatS2b] "S2"
    (by decide) (by decide) (by decide)

/-- C2, counterexample.  The claim lists Available→Held as the only legal
transition out of Available, so a direct Available→Booked move must fail with
`InvalidTransition` and leave the status unchanged.  Constructing a booking
over the Available seat S1 moves it straight to Booked with no error. -/
theorem C2_counterexample_available_to_booked :
    statusOf demoStore "S1" = some SeatStatus.available ∧
    statusOf (Booking.init "B1" "C1" "SH1" [seatS1] 200 demoStore).2 "S1"
      = some SeatStatus.booked := by
  constructor <;> decide

/-- C2, amended.  The code's `SeatStatus` has only Available and Booked (no
Held) and no `InvalidTransition` error exists.  The only transitions ever
performed are unconditional sets: booking construction forces every requested
seat to Booked (from either status) and cancellation of a found booking forces
every seat named by it to Available (from either status); all other seats keep
their status. -/
theorem C2_only_forced_set_transitions (id cid sid bid : String)
    (seats : List Seat) (base_price : ℚ) (store : SeatStore) (c : Customer)
    (i : String) :
    statusOf (Booking.init id cid sid seats base_price store).2 i
      = (statusOf store i).map
          (fun old => if i ∈ seats.map Seat.id then SeatStatus.booked else old) ∧
    statusOf (c.cancel_booking bid store).2.2 i
      = (match c.bookings.lookup bid with
         | some b => (statusOf store i).map
             (fun old => if i ∈ b.seats then SeatStatus.available else old)
         | none => statusOf store i) := by
  constructor
  · show statusOf (setStatus store (seats.map Seat.id) SeatStatus.booked) i = _
    rw [statusOf_setStatus]
  · unfold Customer.cancel_booking
    cases c.bookings.lookup bid with
    | some b => simpa using statusOf_setStatus store b.seats SeatStatus.available i
    | none => simp

/-- C10.  `Booking.__init__` always succeeds: the booking names exactly the
requested seat ids, and every store seat whose id is requested is re-marked
Booked regardless of its prior status — in particular a seat that is already
Booked.  No `SeatUnavailable` failure path exists in the constructor. -/
theorem C10_booking_unconditionally_books (id cid sid : String)
    (seats : List Seat) (base_price : ℚ) (store : SeatStore) (s : Seat)
    (hs : s ∈ store) (hid : s.id ∈ seats.map Seat.id) :
    (Booking.init id cid sid seats base_price store).1.seats = seats.map Seat.id ∧
    { s with status := SeatStatus.booked }
      ∈ (Booking.init id cid sid seats base_price store).2 := by
  refine ⟨rfl, ?_⟩
  show _ ∈ setStatus store (seats.map Seat.id) SeatStatus.booked
  have h := List.mem_map_of_mem
    (fun t => if t.id ∈ seats.map Seat.id then { t with status := SeatStatus.booked } else t) hs
  simpa [setStatus, hid] using h

/-- Setting the same ids twice keeps only the second status. -/
theorem setStatus_setStatus (store : SeatStore) (ids : List String)
    (st1 st2 : SeatStatus) :
    setStatus (setStatus store ids st1) ids st2 = setStatus store ids st2 := by
  unfold setStatus
  rw [List.map_map]
  have hfun :
      ((fun s => if s.id ∈ ids then { s with status := st2 } else s) ∘
        fun s => if s.id ∈ ids then { s with status := st1 } else s)
      = fun s : Seat => if s.id ∈ ids then { s with status := st2 } else s := by
    funext s
    by_cases hmem : s.id ∈ ids <;> simp [hmem]
  rw [hfun]

/-- Setting ids to a status every targeted seat already has is a no-op. -/
theorem setStatus_eq_self (store : SeatStore) (ids : List String)
    (st : SeatStatus) (h : ∀ s ∈ store, s.id ∈ ids → s.status = st) :
    setStatus store ids st = store := by
  induction store with
  | nil => rfl
  | cons s rest ih =>
    have hrest := ih (fun t ht => h t (by simp [ht]))
    by_cases hmem : s.id ∈ ids
    · simp only [setStatus, List.map_cons] at hrest ⊢
      rw [if_pos hmem, hrest, ← h s (by simp) hmem]
    · simp only [setStatus, List.map_cons] at hrest ⊢
      rw [if_neg hmem, hrest]

/-- C3.  Booking seats that are all Available, storing the booking, then
cancelling it by id returns the seat store and the customer's booking map to
exactly their original values. -/
theorem C3_claim_commit_cancel_round_trip (bid cid sid : String)
    (seats : List Seat) (base_price : ℚ) (c : Customer) (store : SeatStore)
    (havail : ∀ s ∈ store, s.id ∈ seats.map Seat.id → s.status = SeatStatus.available)
    (hfresh : ∀ p ∈ c.bookings, p.1 ≠ bid) :
    claimCommitCancel bid cid sid seats base_price c store
      = (CancelResult.cancelled, c, store) := by
  have hb : c.bookings.filter (fun p => p.1 != bid) = c.bookings :=
    List.filter_eq_self.mpr (fun p hp => by simpa [bne_iff_ne] using hfresh p hp)
  unfold claimCommitCancel Booking.init Customer.create_booking Customer.cancel_booking
  simp only [List.lookup, beq_self_eq_true, List.filter_cons, bne_self_eq_false,
    Bool.false_eq_true, if_false, hb, Prod.mk.injEq, true_and]
  rw [setStatus_setStatus, setStatus_eq_self store (seats.map Seat.id)
    SeatStatus.available havail]

theorem C3_claim_commit_cancel_round_trip_witness :
    claimCommitCancel "B1" "C1" "SH1" [seatS1] 200 customerC1 demoStore
      = (CancelResult.cancelled, customerC1, demoStore) :=
  C3_claim_commit_cancel_round_trip "B1" "C1" "SH1" [seatS1] 200 customerC1
    demoStore (by decide) (by decide)

/-- C4.  In the booking flow of `main`, when the payment gateway declines, the
outcome reports failure, no seat's status changes, the customer's booking map
is untouched, and the requested seat (the first available one) is still
Available when the flow returns. -/
theorem C4_payment_declined_leaves_seats_available (c : Customer)
    (store : SeatStore) (base_price : ℚ) (s : Seat) (rest : List Seat)
    (h : store.filter (fun t => t.status == SeatStatus.available) = s :: rest) :
    mainBookingFlow c store base_price false
      = (BookOutcome.paymentFailed, c, store) ∧
    s.status = SeatStatus.available := by
  constructor
  · unfold mainBookingFlow
    rw [h]
    simp [PaymentGateway.process_payment]
  · have hs : s ∈ store.filter (fun t => t.status == SeatStatus.available) := by
      rw [h]
      exact List.mem_cons_self s rest
    simpa using (List.mem_filter.mp hs).2

theorem C4_payment_declined_leaves_seats_available_witness :
    mainBookingFlow customerC1 demoStore 200 false
      = (BookOutcome.paymentFailed, customerC1, demoStore) ∧
    seatS1.status = SeatStatus.available :=
  C4_payment_declined_leaves_seats_available customerC1 demoStore 200 seatS1
    [seatS2] (by decide)

/-- C5.  A booking's total price is the sum over its seats of the per-category
price of the base price; and in the `main` scenario (S1 Gold, S2 Premium, base
price 200, gateway approving) the flow succeeds with a booking priced 300 over
S1, stores it for the customer, and leaves S1 Booked and S2 untouched. -/
theorem C5_total_price_and_gold_scenario (id cid sid : String)
    (seats : List Seat) (base_price : ℚ) (store : SeatStore) :
    (Booking.init id cid sid seats base_price store).1.total_price
      = (seats.map (fun s => s.pricing_strategy.get_price base_price)).sum ∧
    mainBookingFlow customerC1 demoStore 200 true
      = (BookOutcome.success ⟨"B1", "C1", "SH1", ["S1"], 300⟩,
         { customerC1 with
             bookings := [("B1", ⟨"B1", "C1", "SH1", ["S1"], 300⟩)] },
         [{ seatS1 with status := SeatStatus.booked }, seatS2]) := by
  constructor
  · rfl
  · norm_num [mainBookingFlow, Booking.init, Customer.create_booking,
      PaymentGateway.process_payment, Seat.get_price, PricingStrategy.get_price,
      setStatus, demoStore, customerC1, seatS1, seatS2]
    exact fun h => absurd h (by decide)

/-- The store after the first of two overlapping claims in `main`'s setting:
S1 has just been booked by booking B1. -/
def overlapStore : SeatStore := (Booking.init "B1" "C1" "SH1" [seatS1] 200 demoStore).2

/-- C6, counterexample.  After booking B1 claims S1, a second claim for S1 by
another customer also completes: it produces booking B2 naming S1 and leaves
S1 Booked — a silent double-success with no `SeatUnavailable`. -/
theorem C6_counterexample_silent_double_success :
    (Booking.init "B1" "C1" "SH1" [seatS1] 200 demoStore).1.seats = ["S1"] ∧
    (Booking.init "B2" "C2" "SH1" (overlapStore.filter (fun s => s.id == "S1"))
      200 overlapStore).1.seats = ["S1"] ∧
    statusOf (Booking.init "B2" "C2" "SH1"
      (overlapStore.filter (fun s => s.id == "S1")) 200 overlapStore).2 "S1"
      = some SeatStatus.booked := by
  decide

/-- C6, amended.  Two claims over overlapping seat sets, in either order of
serialization, both complete successfully: each produces a booking naming its
full requested set, and afterwards every seat in the union is Booked.  The
code never detects the overlap. -/
theorem C6_overlapping_claims_both_succeed (idA idB cA cB sid : String)
    (A B : List Seat) (base_price : ℚ) (store : SeatStore) (i : String) :
    (Booking.init idA cA sid A base_price store).1.seats = A.map Seat.id ∧
    (Booking.init idB cB sid B base_price
      (Booking.init idA cA sid A base_price store).2).1.seats = B.map Seat.id ∧
    statusOf (Booking.init idB cB sid B base_price
      (Booking.init idA cA sid A base_price store).2).2 i
      = (statusOf store i).map (fun old =>
          if i ∈ B.map Seat.id then SeatStatus.booked
          else if i ∈ A.map Seat.id then SeatStatus.booked else old) := by
  refine ⟨rfl, rfl, ?_⟩
  show statusOf (setStatus (setStatus store (A.map Seat.id) SeatStatus.booked)
    (B.map Seat.id) SeatStatus.booked) i = _
  rw [statusOf_setStatus, statusOf_setStatus]
  cases statusOf store i with
  | none => rfl
  | some st =>
      by_cases hB : i ∈ B.map Seat.id <;> by_cases hA : i ∈ A.map Seat.id <;>
        simp [hA, hB]

/-- Association-list lookup misses when no key matches. -/
theorem lookup_eq_none_of_keys_ne (bid : String) :
    ∀ l : List (String × Booking), (∀ p ∈ l, p.1 ≠ bid) →
      l.lookup bid = none := by
  intro l
  induction l with
  | nil => intro _; rfl
  | cons p rest ih =>
      intro h
      obtain ⟨k, v⟩ := p
      have hk : (bid == k) = false :=
        beq_eq_false_iff_ne.mpr (Ne.symm (h (k, v) (by simp)))
      simp only [List.lookup, hk]
      exact ih (fun q hq => h q (by simp [hq]))

/-- C7.  Cancelling a booking id that is not among the customer's bookings
(in particular one owned by another customer) reports not-found and changes
neither the customer's bookings nor any seat. -/
theorem C7_cancel_unknown_booking_fails (c : Customer) (bid : String)
    (store : SeatStore) (h : ∀ p ∈ c.bookings, p.1 ≠ bid) :
    c.cancel_booking bid store = (CancelResult.notFound, c, store) := by
  unfold Customer.cancel_booking
  rw [lookup_eq_none_of_keys_ne bid c.bookings h]

theorem C7_cancel_unknown_booking_fails_witness :
    customerC1.cancel_booking "B9" demoStore
      = (CancelResult.notFound, customerC1, demoStore) :=
  C7_cancel_unknown_booking_fails customerC1 "B9" demoStore (by decide)

/-- C8, counterexample.  A booking over the empty seat set succeeds (total
price 0, store unchanged) instead of failing with `InvalidInput`; and with the
non-positive base price 0 a booking over S1 succeeds and flips S1 to Booked,
so seat state changes despite the invalid input. -/
theorem C8_counterexample_no_invalid_input :
    (Booking.init "B1" "C1" "SH1" [] 200 demoStore).1.total_price = 0 ∧
    (Booking.init "B1" "C1" "SH1" [] 200 demoStore).2 = demoStore ∧
    (Booking.init "B1" "C1" "SH1" [seatS1] 0 demoStore).1.total_price = 0 ∧
    statusOf (Booking.init "B1" "C1" "SH1" [seatS1] 0 demoStore).2 "S1"
      = some SeatStatus.booked := by
  refine ⟨?_, by decide, ?_, by decide⟩
  · norm_num [Booking.init]
  · norm_num [Booking.init, Seat.get_price, PricingStrategy.get_price, seatS1]

/-- C8, amended.  The code validates nothing: an empty seat set produces a
booking with total price 0 and an unchanged store, and a non-positive base
price is accepted, yielding a non-positive total scaled by the seat's
multiplier. -/
theorem C8_no_input_validation (id cid sid : String) (base_price : ℚ)
    (store : SeatStore) (s : Seat) (hneg : base_price ≤ 0) :
    (Booking.init id cid sid [] base_price store).1.total_price = 0 ∧
    (Booking.init id cid sid [] base_price store).2 = store ∧
    (Booking.init id cid sid [s] base_price store).1.total_price
      = s.pricing_strategy.get_price base_price ∧
    (Booking.init id cid sid [s] base_price store).1.total_price ≤ 0 := by
  refine ⟨rfl, ?_, ?_, ?_⟩
  · show setStatus store (([] : List Seat).map Seat.id) SeatStatus.booked = store
    simp [setStatus]
  · simp [Booking.init, Seat.get_price]
  · have hle : s.pricing_strategy.get_price base_price ≤ 0 := by
      cases s.pricing_strategy <;> simp [PricingStrategy.get_price] <;> nlinarith
    simpa [Booking.init, Seat.get_price] using hle

theorem C8_no_input_validation_witness :
    (Booking.init "B1" "C1" "SH1" [] 0 demoStore).1.total_price = 0 ∧
    (Booking.init "B1" "C1" "SH1" [] 0 demoStore).2 = demoStore ∧
    (Booking.init "B1" "C1" "SH1" [seatS1] 0 demoStore).1.total_price
      = seatS1.pricing_strategy.get_price 0 ∧
    (Booking.init "B1" "C1" "SH1" [seatS1] 0 demoStore).1.total_price ≤ 0 :=
  C8_no_input_validation "B1" "C1" "SH1" 0 demoStore seatS1 (le_refl 0)

/-- A second Gold-priced seat, differing from S1 in every other field. -/
def seatGold2 : Seat :=
  { seatS2 with pricing_strategy := PricingStrategy.goldPricingStrategy }

/-- C9.  `get_price` is pure and deterministic: the call leaves the seat
(`self`) unchanged, and its result depends only on the pricing strategy and
the base price — two seats with the same strategy price identically at the
same base price, whatever their other fields. -/
theorem C9_pricing_pure_deterministic (s t : Seat) (base_price : ℚ)
    (h : s.pricing_strategy = t.pricing_strategy) :
    (s.get_price base_price).2 = s ∧
    (s.get_price base_price).1 = (t.get_price base_price).1 := by
  exact ⟨rfl, by simp [Seat.get_price, h]⟩

theorem C9_pricing_pure_deterministic_witness :
    (seatS1.get_price 200).2 = seatS1 ∧
    (seatS1.get_price 200).1 = (seatGold2.get_price 200).1 :=
  C9_pricing_pure_deterministic seatS1 seatGold2 200 rfl

theorem C10_booking_unconditionally_books_witness :
    (Booking.init "B8" "C1" "SH1" [seatS2b] 200 [seatS2b]).1.seats
      = [seatS2b].map Seat.id ∧
    { seatS2b with status := SeatStatus.booked }
      ∈ (Booking.init "B8" "C1" "SH1" [seatS2b] 200 [seatS2b]).2 :=
  C10_booking_unconditionally_books "B8" "C1" "SH1" [seatS2b] 200 [seatS2b]
    seatS2b (by decide) (by decide)

end MovieTicket
